import Mathlib

/-!
Shallow embedding of the `final-project-backend` service (src/server.js,
canonical revision) and verification of its specification.

The document store (MongoDB via mongoose) and the password hasher (bcrypt)
are external collaborators; per the spec (§1, §2) they are modelled as
exact-match lookup / insert / update / delete over in-memory lists, and as
abstract `hash`/`verify` functions.  Fresh identifiers, access tokens and
timestamps are supplied as explicit parameters (in the source they come from
the store, `crypto.randomBytes`, and the clock).
-/

namespace FinalProject

/-- A persisted User document (`UserSchema`, server.js lines 20-35).
`mongoId` stands for the store-assigned `_id`; `password` holds the bcrypt
hash (the signup handler stores `bcrypt.hashSync(password, salt)`, never the
plaintext). -/
structure UserDoc where
  mongoId : String
  username : String
  password : String
  accessToken : String
deriving Repr, DecidableEq

/-- A persisted Location document (`LocationSchema`, server.js lines 121-141).
`mongoId` stands for the store-assigned `_id`; `user` is the owning user
`_id` (stored as a string, per the schema).  `idField` is the value of a
document field literally named `id`, if the document has one: `LocationSchema`
declares no path `id`, so every document saved by this application carries
`idField = none`.  The field is kept because the edit/delete handlers filter
on the key `id` (server.js lines 187 and 216), and a MongoDB filter
`{ id: v }` matches exactly the documents whose `id` field equals `v`. -/
structure LocationDoc where
  mongoId : String
  title : String
  location : String
  tag : Option String
  createdAt : Nat
  user : String
  idField : Option String
deriving Repr, DecidableEq

/-- The two collections of the persisted state (spec §6: `users`,
`locations`). -/
structure Store where
  users : List UserDoc
  locations : List LocationDoc
deriving Repr, DecidableEq

/-- The public projection of a User returned by signup and signin
(server.js lines 56-60 and 79-83): username, accessToken and `_id`. -/
structure UserProjection where
  username : String
  accessToken : String
  id : String
deriving Repr, DecidableEq

/-- The JSON value placed under the `response` key of a handler reply
(in two handlers the source misspells the key as `respone`; the payload is
the same).  `err` is a forwarded caught exception (`response: e`);
`jsonNull` is JSON `null`. -/
inductive Body where
  | msg : String → Body
  | userProj : UserProjection → Body
  | loc : LocationDoc → Body
  | locList : List LocationDoc → Body
  | jsonNull : Body
  | err : String → Body
deriving Repr, DecidableEq

/-- An HTTP reply: status code, the `success` flag, the `response` payload
and the optional `message` field some handlers add. -/
structure Response where
  status : Nat
  success : Bool
  response : Body
  message : Option String := none
deriving Repr, DecidableEq

/-- Embeds `app.post("/signup")` (server.js lines 43-69).  `hash` is the
bcrypt collaborator with the generated salt folded in; `freshId` and
`freshToken` are the store-assigned `_id` and the `crypto.randomBytes`
default access token.  A duplicate username makes `save()` throw the unique
constraint violation, caught as the 400 reply; the password length check
happens before any write. -/
def signup (hash : String → String) (st : Store)
    (username password freshId freshToken : String) : Response × Store :=
  if password.length < 8 then
    ({status := 400, success := false,
      response := .msg "Password must be minimum 8 characters"}, st)
  else if st.users.any (fun u => u.username == username) then
    ({status := 400, success := false,
      response := .msg "Could not create user, username already exists"}, st)
  else
    let newUser : UserDoc :=
      {mongoId := freshId, username := username, password := hash password,
       accessToken := freshToken}
    ({status := 201, success := true,
      response := .userProj ⟨username, freshToken, freshId⟩},
     {st with users := st.users ++ [newUser]})

/-- Embeds the body of `app.post("/signin")` after the store round-trip
(server.js lines 76-90): `user && bcrypt.compareSync(password, user.password)`
gives the success reply, otherwise the shared soft-failure reply. -/
def signinResult (verify : String → String → Bool) (found : Option UserDoc)
    (password : String) : Response :=
  match found with
  | some u =>
      if verify password u.password then
        {status := 200, success := true,
         response := .userProj ⟨u.username, u.accessToken, u.mongoId⟩}
      else
        {status := 200, success := false,
         response := .msg "User not found, incorrect username or password"}
  | none =>
      {status := 200, success := false,
       response := .msg "User not found, incorrect username or password"}

/-- Embeds `app.post("/signin")` (server.js lines 72-98) including the
`catch` branch: `lookupOutcome` is the result of the
`User.findOne({ username })` round-trip, which either throws (store error,
`.error`) or yields an optional document. -/
def signinHandler (verify : String → String → Bool)
    (lookupOutcome : Except String (Option UserDoc)) (password : String) :
    Response :=
  match lookupOutcome with
  | .error e =>
      {status := 400, success := false, response := .err e,
       message := some "Something went wrong, please try again."}
  | .ok found => signinResult verify found password

/-- The Credential Store lookup `User.findOne({ username })`: exact-match
lookup by username (spec §2). -/
def findByUsername (st : Store) (username : String) : Option UserDoc :=
  st.users.find? (fun u => u.username == username)

/-- `app.post("/signin")` against a store that does not fail. -/
def signin (verify : String → String → Bool) (st : Store)
    (username password : String) : Response :=
  signinHandler verify (.ok (findByUsername st username)) password

/-- The 401 reply of the authentication middleware (server.js lines
107-110). -/
def unauthorizedResponse : Response :=
  {status := 401, success := false,
   response := .msg "Access denied, please sign in."}

/-- Embeds the lookup of `authenticateUser` (server.js lines 101-118):
`User.findOne({ accessToken: req.header("Authorization") })`.  The
Credential Store collaborator is modelled from the spec (§2): exact-match
lookup by access token.  An absent `Authorization` header is `none`, which
equals no `some token`. -/
def authenticateUser (st : Store) (authHeader : Option String) :
    Option UserDoc :=
  st.users.find? (fun u => (some u.accessToken : Option String) == authHeader)

/-- The sort key of the list query, which sorts by `createdAt` descending:
`a` precedes `b` when `a.createdAt ≥ b.createdAt`. -/
def byCreatedAtDesc (a b : LocationDoc) : Prop :=
  b.createdAt ≤ a.createdAt

instance : DecidableRel byCreatedAtDesc :=
  fun a b => Nat.decLe b.createdAt a.createdAt

instance : IsTotal LocationDoc byCreatedAtDesc :=
  ⟨fun a b => Nat.le_total b.createdAt a.createdAt⟩

instance : IsTrans LocationDoc byCreatedAtDesc :=
  ⟨fun _ _ _ h h' => Nat.le_trans h' h⟩

/-- The sorted find of the Location Store: filter results ordered by
`createdAt` descending (stable, as a collaborator sort on one key). -/
def sortByCreatedAtDesc (ls : List LocationDoc) : List LocationDoc :=
  List.insertionSort byCreatedAtDesc ls

/-- Embeds `app.get("/locations")` with its middleware (server.js lines
145-160).  The handler re-runs the token lookup the middleware already ran;
the store is unchanged in between, so the single lookup is shared.  On a
match it returns the locations of the caller, `createdAt` descending. -/
def getLocations (st : Store) (authHeader : Option String) :
    Response × Store :=
  match authenticateUser st authHeader with
  | none => (unauthorizedResponse, st)
  | some u =>
      let locations :=
        sortByCreatedAtDesc (st.locations.filter (fun l => l.user == u.mongoId))
      ({status := 200, success := true, response := .locList locations}, st)

/-- The JSON body of a location request: `{ title, location, tag }`, plus
whatever owner field the caller may also have sent (`user`); the handler
destructures only `title`, `location` and `tag` (server.js line 165). -/
structure LocationBody where
  title : String
  location : String
  tag : Option String
  user : Option String := none
deriving Repr, DecidableEq

/-- Embeds `app.post("/locations")` with its middleware (server.js lines
163-179).  The owner is always the `_id` of the authenticated user; the
`required` validators of mongoose make `save()` throw on an empty `title` or `location`,
caught as the 400 reply.  The saved document has no `id` field
(`idField = none`): the schema declares no such path. -/
def postLocation (st : Store) (authHeader : Option String)
    (body : LocationBody) (freshId : String) (now : Nat) : Response × Store :=
  match authenticateUser st authHeader with
  | none => (unauthorizedResponse, st)
  | some u =>
      if body.title == "" || body.location == "" then
        ({status := 400, success := false, response := .err "ValidationError"},
         st)
      else
        let newLocation : LocationDoc :=
          {mongoId := freshId, title := body.title, location := body.location,
           tag := body.tag, createdAt := now, user := u.mongoId,
           idField := none}
        ({status := 200, success := true, response := .loc newLocation},
         {st with locations := st.locations ++ [newLocation]})

/-- Embeds `Location.findOne({ id, user: user._id })` (server.js lines 187
and 216): a MongoDB filter on the document field `id` (not `_id`) and the
owner.  A document matches when its `id` field holds the given string and
its `user` field the given owner id. -/
def locationFindOneIdUser (st : Store) (id : String) (ownerId : String) :
    Option LocationDoc :=
  st.locations.find? (fun l => l.idField == some id && l.user == ownerId)

/-- The 404 reply of the edit and delete handlers. -/
def notFoundResponse : Response :=
  {status := 404, success := false, response := .msg "Location not found"}

/-- Embeds `app.delete("/locations/:id")` with its middleware (server.js
lines 182-207).  On a filter match, `theLocation.remove()` deletes that
document (by its `_id`) and the reply carries the pre-delete snapshot. -/
def deleteLocation (st : Store) (authHeader : Option String) (id : String) :
    Response × Store :=
  match authenticateUser st authHeader with
  | none => (unauthorizedResponse, st)
  | some u =>
      match locationFindOneIdUser st id u.mongoId with
      | some theLocation =>
          ({status := 201, success := true, response := .loc theLocation,
            message := some "Deleted successfully"},
           {st with locations :=
             st.locations.eraseP (fun l => l.mongoId == theLocation.mongoId)})
      | none => (notFoundResponse, st)

/-- Embeds `Location.findByIdAndUpdate(id, {title, location, tag},
{new: true})` (server.js line 218): replaces `title`, `location`, `tag` of
the document whose `_id` equals `id` and returns the updated document, or
`none` when no document has that `_id`. -/
def findByIdAndUpdate (ls : List LocationDoc) (id : String)
    (title location : String) (tag : Option String) :
    List LocationDoc × Option LocationDoc :=
  let updated := ls.map (fun l =>
    if l.mongoId == id then
      {l with title := title, location := location, tag := tag}
    else l)
  (updated, updated.find? (fun l => l.mongoId == id))

/-- Embeds `app.patch("/locations/:id/edit")` with its middleware
(server.js lines 210-236). -/
def editLocation (st : Store) (authHeader : Option String) (id : String)
    (body : LocationBody) : Response × Store :=
  match authenticateUser st authHeader with
  | none => (unauthorizedResponse, st)
  | some u =>
      match locationFindOneIdUser st id u.mongoId with
      | some _ =>
          let p := findByIdAndUpdate st.locations id body.title body.location
            body.tag
          ({status := 201, success := true,
            response := match p.2 with
              | some l => .loc l
              | none => .jsonNull,
            message := some "edited successfully"},
           {st with locations := p.1})
      | none => (notFoundResponse, st)

/-! ## Theorems -/

/-- Claim C4: for every password with length < 8, signup replies HTTP 400
with "Password must be minimum 8 characters" and the store is returned
unchanged — no User is persisted, no write is performed. -/
theorem signup_short_password (hash : String → String) (st : Store)
    (username password freshId freshToken : String)
    (h : password.length < 8) :
    signup hash st username password freshId freshToken =
      ({status := 400, success := false,
        response := .msg "Password must be minimum 8 characters"}, st) := by
  simp [signup, h]

/-- Witness for C4: registering with the 2-character password "pw" fails
with the validation reply and leaves the empty store empty. -/
theorem signup_short_password_witness :
    signup id {users := [], locations := []} "alice" "pw" "u1" "tok1" =
      ({status := 400, success := false,
        response := .msg "Password must be minimum 8 characters"},
       {users := [], locations := []}) :=
  signup_short_password id {users := [], locations := []} "alice" "pw" "u1"
    "tok1" (by decide)

/-- Claim C5: signin with an unknown username, or a known username and a
failing password verification, is a soft failure — HTTP 200 with
`success = false` — while a store failure is a hard failure, HTTP 400; the
two status codes differ, so the outcomes are never conflated. -/
theorem signin_soft_vs_hard (verify : String → String → Bool)
    (password : String) (u : UserDoc) (e : String)
    (hwrong : verify password u.password = false) :
    (signinHandler verify (.ok none) password).status = 200 ∧
    (signinHandler verify (.ok none) password).success = false ∧
    (signinHandler verify (.ok (some u)) password).status = 200 ∧
    (signinHandler verify (.ok (some u)) password).success = false ∧
    (signinHandler verify (.error e) password).status = 400 ∧
    (signinHandler verify (.ok none) password).status ≠
      (signinHandler verify (.error e) password).status := by
  simp [signinHandler, signinResult, hwrong]

/-- Witness for C5 at a concrete verifier that rejects the password. -/
theorem signin_soft_vs_hard_witness :
    (signinHandler (fun _ _ => false) (.ok none) "pw123456").status = 200 ∧
    (signinHandler (fun _ _ => false) (.ok none) "pw123456").success = false ∧
    (signinHandler (fun _ _ => false)
      (.ok (some ⟨"u1", "alice", "hash1", "tok1"⟩)) "pw123456").status = 200 ∧
    (signinHandler (fun _ _ => false)
      (.ok (some ⟨"u1", "alice", "hash1", "tok1"⟩)) "pw123456").success
      = false ∧
    (signinHandler (fun _ _ => false) (.error "boom") "pw123456").status
      = 400 ∧
    (signinHandler (fun _ _ => false) (.ok none) "pw123456").status ≠
      (signinHandler (fun _ _ => false) (.error "boom") "pw123456").status :=
  signin_soft_vs_hard (fun _ _ => false) "pw123456"
    ⟨"u1", "alice", "hash1", "tok1"⟩ "boom" rfl

/-- Claim C10: the signin replies for "username not found" and "username
found but password verification fails" are the very same value — same HTTP
status 200 and byte-identical body — so a caller cannot learn from the
reply whether a username is registered. -/
theorem signin_no_username_probe (verify : String → String → Bool)
    (st₁ st₂ : Store) (un₁ pw₁ un₂ pw₂ : String) (u : UserDoc)
    (h₁ : findByUsername st₁ un₁ = none)
    (h₂ : findByUsername st₂ un₂ = some u)
    (hwrong : verify pw₂ u.password = false) :
    signin verify st₁ un₁ pw₁ = signin verify st₂ un₂ pw₂ := by
  simp [signin, signinHandler, signinResult, h₁, h₂, hwrong]

/-- Witness for C10: signing in as the unregistered "bob" and signing in as
the registered "alice" with a rejected password produce equal replies. -/
theorem signin_no_username_probe_witness :
    signin (fun _ _ => false)
        {users := [⟨"u1", "alice", "hash1", "tok1"⟩], locations := []}
        "bob" "pw123456" =
      signin (fun _ _ => false)
        {users := [⟨"u1", "alice", "hash1", "tok1"⟩], locations := []}
        "alice" "pw123456" :=
  signin_no_username_probe (fun _ _ => false)
    {users := [⟨"u1", "alice", "hash1", "tok1"⟩], locations := []}
    {users := [⟨"u1", "alice", "hash1", "tok1"⟩], locations := []}
    "bob" "pw123456" "alice" "pw123456" ⟨"u1", "alice", "hash1", "tok1"⟩
    rfl rfl rfl

/-- Claim C3: when the Authorization header is absent, empty, or equal to
the accessToken of no stored user, every one of the four location operations
replies with the fixed 401 Unauthorized response and returns the store
unchanged — the handler behind the middleware is never reached, so no
Location is created, modified or removed and the reply does not depend on
the location collection.  (The hypothesis `htok` records that stored access
tokens are never the empty string: they are 256-character hex strings from
`crypto.randomBytes`.) -/
theorem locations_unauthorized (st : Store) (authHeader : Option String)
    (body : LocationBody) (id freshId : String) (now : Nat)
    (htok : ∀ u ∈ st.users, u.accessToken ≠ "")
    (h : authHeader = none ∨ authHeader = some "" ∨
         ∀ u ∈ st.users, some u.accessToken ≠ authHeader) :
    getLocations st authHeader = (unauthorizedResponse, st) ∧
    postLocation st authHeader body freshId now = (unauthorizedResponse, st) ∧
    deleteLocation st authHeader id = (unauthorizedResponse, st) ∧
    editLocation st authHeader id body = (unauthorizedResponse, st) := by
  have hne : ∀ u ∈ st.users, some u.accessToken ≠ authHeader := by
    rcases h with h | h | h
    · intro u _ hc
      rw [h] at hc
      exact Option.noConfusion hc
    · intro u hu hc
      rw [h] at hc
      exact htok u hu (Option.some.inj hc)
    · exact h
  have hauth : authenticateUser st authHeader = none := by
    rw [authenticateUser, List.find?_eq_none]
    intro u hu
    simpa using hne u hu
  refine ⟨?_, ?_, ?_, ?_⟩ <;>
    simp [getLocations, postLocation, deleteLocation, editLocation, hauth]

/-- Witness for C3: with one registered user, the four operations under a
wrong bearer token all reply 401 and leave the store unchanged. -/
theorem locations_unauthorized_witness :
    getLocations
        {users := [⟨"u1", "alice", "hash1", "tok1"⟩], locations := []}
        (some "wrong") =
      (unauthorizedResponse,
       {users := [⟨"u1", "alice", "hash1", "tok1"⟩], locations := []}) ∧
    postLocation
        {users := [⟨"u1", "alice", "hash1", "tok1"⟩], locations := []}
        (some "wrong") ⟨"Park", "Main St", some "outdoor", none⟩ "l1" 5 =
      (unauthorizedResponse,
       {users := [⟨"u1", "alice", "hash1", "tok1"⟩], locations := []}) ∧
    deleteLocation
        {users := [⟨"u1", "alice", "hash1", "tok1"⟩], locations := []}
        (some "wrong") "l1" =
      (unauthorizedResponse,
       {users := [⟨"u1", "alice", "hash1", "tok1"⟩], locations := []}) ∧
    editLocation
        {users := [⟨"u1", "alice", "hash1", "tok1"⟩], locations := []}
        (some "wrong") "l1" ⟨"Park", "Main St", some "outdoor", none⟩ =
      (unauthorizedResponse,
       {users := [⟨"u1", "alice", "hash1", "tok1"⟩], locations := []}) :=
  locations_unauthorized
    {users := [⟨"u1", "alice", "hash1", "tok1"⟩], locations := []}
    (some "wrong") ⟨"Park", "Main St", some "outdoor", none⟩ "l1" "l1" 5
    (by decide) (Or.inr (Or.inr (by decide)))

/-- Claim C1: an authenticated user `b` calling edit or delete with the id
of a location `l` owned by someone else gets the 404 `notFoundResponse`
and the store back unchanged, exactly as for a nonexistent id: the
`findOne` filter pairs the id with the user id of the caller, so `l` never
matches for `b`.  (`hid` is the store invariant that application-saved
location documents carry no field named `id`.) -/
theorem crossUser_edit_delete_notFound (st : Store)
    (authHeader : Option String) (b : UserDoc) (l : LocationDoc)
    (body : LocationBody)
    (hauth : authenticateUser st authHeader = some b)
    (hl : l ∈ st.locations) (hown : l.user ≠ b.mongoId)
    (hid : ∀ l' ∈ st.locations, l'.idField = none) :
    deleteLocation st authHeader l.mongoId = (notFoundResponse, st) ∧
    editLocation st authHeader l.mongoId body = (notFoundResponse, st) := by
  have hfind : locationFindOneIdUser st l.mongoId b.mongoId = none := by
    rw [locationFindOneIdUser, List.find?_eq_none]
    intro x hx
    simp [hid x hx]
  refine ⟨?_, ?_⟩ <;> simp [deleteLocation, editLocation, hauth, hfind]

/-- Witness for C1: when bob deletes and edits the location "loc1" of alice,
both calls reply 404 and leave the data of both users untouched. -/
theorem crossUser_edit_delete_notFound_witness :
    deleteLocation
        {users := [⟨"uA", "alice", "hash1", "tokA"⟩,
                   ⟨"uB", "bob", "hash2", "tokB"⟩],
         locations := [⟨"loc1", "Park", "Main St", some "outdoor", 1, "uA",
                        none⟩]}
        (some "tokB") "loc1" =
      (notFoundResponse,
       {users := [⟨"uA", "alice", "hash1", "tokA"⟩,
                  ⟨"uB", "bob", "hash2", "tokB"⟩],
        locations := [⟨"loc1", "Park", "Main St", some "outdoor", 1, "uA",
                       none⟩]}) ∧
    editLocation
        {users := [⟨"uA", "alice", "hash1", "tokA"⟩,
                   ⟨"uB", "bob", "hash2", "tokB"⟩],
         locations := [⟨"loc1", "Park", "Main St", some "outdoor", 1, "uA",
                        none⟩]}
        (some "tokB") "loc1" ⟨"New", "Elsewhere", none, none⟩ =
      (notFoundResponse,
       {users := [⟨"uA", "alice", "hash1", "tokA"⟩,
                  ⟨"uB", "bob", "hash2", "tokB"⟩],
        locations := [⟨"loc1", "Park", "Main St", some "outdoor", 1, "uA",
                       none⟩]}) :=
  crossUser_edit_delete_notFound
    {users := [⟨"uA", "alice", "hash1", "tokA"⟩,
               ⟨"uB", "bob", "hash2", "tokB"⟩],
     locations := [⟨"loc1", "Park", "Main St", some "outdoor", 1, "uA",
                    none⟩]}
    (some "tokB") ⟨"uB", "bob", "hash2", "tokB"⟩
    ⟨"loc1", "Park", "Main St", some "outdoor", 1, "uA", none⟩
    ⟨"New", "Elsewhere", none, none⟩
    (by decide) (by decide) (by decide) (by decide)

/-- Claim C9: a location inserted by create always carries the `_id` of the
user resolved from the access token of the request as its owner; the owner
field of the body is never read, so replacing it by any spoofed value leaves
the whole outcome unchanged and no create can attach a location to the
account of another user. -/
theorem create_owner_from_token (st : Store) (authHeader : Option String)
    (body : LocationBody) (freshId : String) (now : Nat) (u : UserDoc)
    (hauth : authenticateUser st authHeader = some u)
    (htitle : body.title ≠ "") (hloc : body.location ≠ "") :
    (postLocation st authHeader body freshId now).2.locations =
      st.locations ++
        [{mongoId := freshId, title := body.title, location := body.location,
          tag := body.tag, createdAt := now, user := u.mongoId,
          idField := none}] ∧
    ∀ spoofed : Option String,
      postLocation st authHeader {body with user := spoofed} freshId now =
        postLocation st authHeader body freshId now := by
  have h1 : (body.title == "") = false := beq_eq_false_iff_ne.mpr htitle
  have h2 : (body.location == "") = false := beq_eq_false_iff_ne.mpr hloc
  refine ⟨?_, ?_⟩ <;> simp [postLocation, hauth, h1, h2]

/-- Witness for C9: a create by alice under her token inserts a location owned
by her id "uA", even though the body smuggles `user := some "uB"`. -/
theorem create_owner_from_token_witness :
    (postLocation {users := [⟨"uA", "alice", "hash1", "tokA"⟩],
                   locations := []}
        (some "tokA") ⟨"Park", "Main St", some "outdoor", some "uB"⟩
        "loc1" 7).2.locations =
      [⟨"loc1", "Park", "Main St", some "outdoor", 7, "uA", none⟩] ∧
    ∀ spoofed : Option String,
      postLocation {users := [⟨"uA", "alice", "hash1", "tokA"⟩],
                    locations := []}
          (some "tokA") ⟨"Park", "Main St", some "outdoor", spoofed⟩
          "loc1" 7 =
        postLocation {users := [⟨"uA", "alice", "hash1", "tokA"⟩],
                      locations := []}
            (some "tokA") ⟨"Park", "Main St", some "outdoor", some "uB"⟩
            "loc1" 7 :=
  create_owner_from_token
    {users := [⟨"uA", "alice", "hash1", "tokA"⟩], locations := []}
    (some "tokA") ⟨"Park", "Main St", some "outdoor", some "uB"⟩ "loc1" 7
    ⟨"uA", "alice", "hash1", "tokA"⟩ (by decide) (by decide) (by decide)

/-- Claim C7: for an authenticated user, list replies 200 with a sequence
that is a permutation of exactly the stored locations whose `user` field is
the id of the caller — no cap — arranged `createdAt`-descending, and the store
is unchanged. -/
theorem list_owner_sorted (st : Store) (authHeader : Option String)
    (u : UserDoc) (hauth : authenticateUser st authHeader = some u) :
    ∃ res : List LocationDoc,
      getLocations st authHeader =
        ({status := 200, success := true, response := .locList res}, st) ∧
      res.Perm (st.locations.filter (fun l => l.user == u.mongoId)) ∧
      res.Sorted byCreatedAtDesc := by
  refine ⟨sortByCreatedAtDesc
      (st.locations.filter (fun l => l.user == u.mongoId)), ?_, ?_, ?_⟩
  · simp [getLocations, hauth]
  · exact List.perm_insertionSort _ _
  · exact List.sorted_insertionSort _ _

/-- Witness for C7, also checking the concrete scenario of the claim: with L1
(createdAt 1) inserted before L2 (createdAt 2) under the same owner, list
returns [L2, L1]. -/
theorem list_owner_sorted_witness :
    (∃ res : List LocationDoc,
      getLocations
          {users := [⟨"uA", "alice", "hash1", "tokA"⟩],
           locations := [⟨"loc1", "Park", "Main St", some "outdoor", 1, "uA",
                          none⟩,
                         ⟨"loc2", "Cafe", "High St", none, 2, "uA", none⟩]}
          (some "tokA") =
        ({status := 200, success := true, response := .locList res},
         {users := [⟨"uA", "alice", "hash1", "tokA"⟩],
          locations := [⟨"loc1", "Park", "Main St", some "outdoor", 1, "uA",
                         none⟩,
                        ⟨"loc2", "Cafe", "High St", none, 2, "uA", none⟩]}) ∧
      res.Perm
        (List.filter (fun l => l.user == "uA")
          [⟨"loc1", "Park", "Main St", some "outdoor", 1, "uA", none⟩,
           ⟨"loc2", "Cafe", "High St", none, 2, "uA", none⟩]) ∧
      res.Sorted byCreatedAtDesc) ∧
    (getLocations
        {users := [⟨"uA", "alice", "hash1", "tokA"⟩],
         locations := [⟨"loc1", "Park", "Main St", some "outdoor", 1, "uA",
                        none⟩,
                       ⟨"loc2", "Cafe", "High St", none, 2, "uA", none⟩]}
        (some "tokA")).1.response =
      .locList [⟨"loc2", "Cafe", "High St", none, 2, "uA", none⟩,
                ⟨"loc1", "Park", "Main St", some "outdoor", 1, "uA", none⟩] :=
  ⟨list_owner_sorted
      {users := [⟨"uA", "alice", "hash1", "tokA"⟩],
       locations := [⟨"loc1", "Park", "Main St", some "outdoor", 1, "uA",
                      none⟩,
                     ⟨"loc2", "Cafe", "High St", none, 2, "uA", none⟩]}
      (some "tokA") ⟨"uA", "alice", "hash1", "tokA"⟩ rfl,
   by decide⟩

/-- Claim C6: a successful registration of a fresh username followed — with
no intervening write — by a signin with the same username and password
succeeds and hands back the very same accessToken (and id) the
registration returned, provided the hasher collaborator satisfies
`verify p (hash p) = true`. -/
theorem register_then_signin (hash : String → String)
    (verify : String → String → Bool) (st : Store)
    (username password freshId freshToken : String)
    (hlen : 8 ≤ password.length)
    (hfresh : ∀ u ∈ st.users, u.username ≠ username)
    (hverify : verify password (hash password) = true) :
    (signup hash st username password freshId freshToken).1 =
      {status := 201, success := true,
       response := .userProj ⟨username, freshToken, freshId⟩} ∧
    signin verify (signup hash st username password freshId freshToken).2
        username password =
      {status := 200, success := true,
       response := .userProj ⟨username, freshToken, freshId⟩} := by
  have hnlt : ¬ password.length < 8 := Nat.not_lt.mpr hlen
  have hany : (st.users.any (fun u => u.username == username)) = false := by
    rw [List.any_eq_false]
    intro u hu
    simpa using hfresh u hu
  have hfind : findByUsername
      {st with users := st.users ++
        [{mongoId := freshId, username := username,
          password := hash password, accessToken := freshToken}]} username =
      some {mongoId := freshId, username := username,
            password := hash password, accessToken := freshToken} := by
    rw [findByUsername, List.find?_append]
    have : st.users.find? (fun u => u.username == username) = none := by
      rw [List.find?_eq_none]
      intro u hu
      simpa using hfresh u hu
    simp [this]
  refine ⟨?_, ?_⟩
  · simp [signup, hnlt, hany]
  · rw [signup]
    simp only [hnlt, if_false, hany, Bool.false_eq_true]
    rw [signin]
    simp [hfind, signinHandler, signinResult, hverify]

/-- Witness for C6 with a concrete injective-tag hasher: registering
("alice", "password1") then signing in with the same credentials returns
the token "tok1" that registration returned. -/
theorem register_then_signin_witness :
    (signup (fun p => String.append p "#h")
        {users := [], locations := []} "alice" "password1" "u1" "tok1").1 =
      {status := 201, success := true,
       response := .userProj ⟨"alice", "tok1", "u1"⟩} ∧
    signin (fun p h => h == String.append p "#h")
        (signup (fun p => String.append p "#h")
          {users := [], locations := []} "alice" "password1" "u1" "tok1").2
        "alice" "password1" =
      {status := 200, success := true,
       response := .userProj ⟨"alice", "tok1", "u1"⟩} :=
  register_then_signin (fun p => String.append p "#h")
    (fun p h => h == String.append p "#h")
    {users := [], locations := []} "alice" "password1" "u1" "tok1"
    (by decide) (by decide) (by decide)

/-- Store invariant behind the `hid` hypothesis of claim C1: create is the only
operation that inserts locations, and every location it saves carries no
document field named `id`. -/
theorem postLocation_idField_none (st : Store) (authHeader : Option String)
    (body : LocationBody) (freshId : String) (now : Nat)
    (hinv : ∀ l ∈ st.locations, l.idField = none) :
    ∀ l ∈ (postLocation st authHeader body freshId now).2.locations,
      l.idField = none := by
  cases hauth : authenticateUser st authHeader with
  | none => simpa [postLocation, hauth] using hinv
  | some u =>
      by_cases h1 : body.title = ""
      · simpa [postLocation, hauth, h1] using hinv
      · by_cases h2 : body.location = ""
        · simpa [postLocation, hauth, h2] using hinv
        · have hres :
              (postLocation st authHeader body freshId now).2.locations =
                st.locations ++
                  [{mongoId := freshId, title := body.title,
                    location := body.location, tag := body.tag,
                    createdAt := now, user := u.mongoId, idField := none}] := by
            simp [postLocation, hauth, h1, h2]
          rw [hres]
          intro l hl
          rcases List.mem_append.mp hl with h | h
          · exact hinv l h
          · rw [List.mem_singleton.mp h]

/-- Claim C2 evaluated at its failing input: alice deletes her own location
"loc1" by its `_id` under her own token, yet the handler replies 404
"Location not found" and removes nothing — `findOne({ id, user })` filters
on a document field named `id` that no saved location has, so the lookup
never matches and the claimed 201 "Deleted successfully" branch is
unreachable. -/
theorem delete_own_location_notFound :
    deleteLocation
        {users := [⟨"uA", "alice", "hash1", "tokA"⟩],
         locations := [⟨"loc1", "Park", "Main St", some "outdoor", 1, "uA",
                        none⟩]}
        (some "tokA") "loc1" =
      (notFoundResponse,
       {users := [⟨"uA", "alice", "hash1", "tokA"⟩],
        locations := [⟨"loc1", "Park", "Main St", some "outdoor", 1, "uA",
                       none⟩]}) := by
  decide

/-- Claim C8 evaluated at its failing input: alice creates a location and
immediately edits it by its `_id` under her own token; the edit handler
replies 404 and leaves every field unchanged, because its ownership lookup
filters on the nonexistent document field `id` — the claimed successful
owner edit is unreachable. -/
theorem edit_own_location_notFound :
    editLocation
        (postLocation
            {users := [⟨"uA", "alice", "hash1", "tokA"⟩], locations := []}
            (some "tokA") ⟨"Park", "Main St", some "outdoor", none⟩
            "loc1" 1).2
        (some "tokA") "loc1" ⟨"New", "Elsewhere", some "indoor", none⟩ =
      (notFoundResponse,
       {users := [⟨"uA", "alice", "hash1", "tokA"⟩],
        locations := [⟨"loc1", "Park", "Main St", some "outdoor", 1, "uA",
                       none⟩]}) := by
  decide

end FinalProject
